import Mathlib

set_option linter.unusedVariables false

/-!
Shallow embedding of the `codeexec` execution engine
(`internal/executor`, current revision: the three-argument
`Execute(code, language, timeout)`), and of the HTTP adapter
(`internal/handler/handler.go`).

Modelling choices:
* The Docker daemon is an oracle: a `DockerEnv` records, for one call to
  `Execute`, the reply the daemon would give to each client call the code
  can make (container ids, start errors, wait outcomes, the inspected
  OOM flag, demultiplexed log streams).
* Each embedded function returns its Go result together with the list of
  Docker-client API calls it issues, in order (`List DockerOp`).  The
  trace vocabulary also contains `kill`, `stop` and `update` — operations
  the docker client library offers — so that their absence from every
  trace is a meaningful statement.
* Go `error` becomes `Except String`; `fmt.Errorf` becomes string
  concatenation; `time.Duration` values appear only via their `%s`
  rendering, so a timeout is carried as the `String` it prints as.
-/

namespace CodeExec

/-- Decidable equality for `Except`, needed to compare daemon replies and
to decide membership of operations in a trace. -/
instance {ε α : Type} [DecidableEq ε] [DecidableEq α] : DecidableEq (Except ε α) :=
  fun x y =>
    match x, y with
    | .ok a, .ok b =>
      if h : a = b then .isTrue (by rw [h]) else .isFalse (by simp [h])
    | .error a, .error b =>
      if h : a = b then .isTrue (by rw [h]) else .isFalse (by simp [h])
    | .ok _, .error _ => .isFalse (by simp)
    | .error _, .ok _ => .isFalse (by simp)

/-- Resource limits of a `container.HostConfig` (`container.Resources`):
the fields the source sets (`Memory`, `MemorySwap`, `CPUQuota`). -/
structure Resources where
  memory : Int
  memorySwap : Int
  cpuQuota : Int
deriving Repr, DecidableEq

/-- Go zero value of `container.Resources`, as sent when the source passes a
`HostConfig` that only sets `Binds` (the javascript syntax-check create). -/
def zeroResources : Resources := ⟨0, 0, 0⟩

/-- One Docker-client API call issued by the executor.  `create` records the
image, command, resources (`none` when the `HostConfig` pointer is nil),
bind mounts, and the daemon's reply (`.ok id` or an error), since the code
consumes that reply.  `remove` records the `Force` flag of the
`RemoveOptions` (the source always sends the zero value, i.e. `false`). -/
inductive DockerOp where
  | create (image : String) (cmd : List String) (res : Option Resources)
      (binds : List String) (reply : Except String String)
  | start (id : String)
  | wait (id : String)
  | inspect (id : String)
  | logs (id : String)
  | remove (id : String) (force : Bool)
  | kill (id : String)
  | stop (id : String)
  | update (id : String) (res : Resources)
deriving Repr, DecidableEq

/-- Outcome of the `select` over `ContainerWait`'s two channels when the
context has no deadline (the syntax-check wait): the error channel fires
with a non-nil error, the error channel fires with a nil error (the Go
`select` then falls through), or the status channel fires with an exit
code. -/
inductive ChanWait where
  | waitErr (msg : String)
  | waitNilErr
  | exited (code : Int)
deriving Repr, DecidableEq

/-- Outcome of the `select` in `waitForContainer`, whose context carries the
caller-supplied timeout: as `ChanWait`, plus the deadline firing first. -/
inductive TimedWait where
  | waitErr (msg : String)
  | waitNilErr
  | exited (code : Int)
  | deadline
deriving Repr, DecidableEq

/-- Outcome of fetching and demultiplexing a container's logs:
`ContainerLogs` itself fails, `stdcopy.StdCopy` fails, or the two streams
are delivered. -/
inductive LogsResult where
  | logsErr (msg : String)
  | copyErr (msg : String)
  | streams (stdout stderr : String)
deriving Repr, DecidableEq

/-- Daemon replies for one call to `Execute`: one group of fields for the
syntax-check container, one for the run-phase container.  `tmpDir` is the
temporary directory `os.MkdirTemp` hands to `createCodeFile`. -/
structure DockerEnv where
  tmpDir : String
  synCreate : Except String String
  synStart : Option String
  synWait : ChanWait
  synLogs : LogsResult
  runCreate : Except String String
  runStart : Option String
  runWait : TimedWait
  inspectRes : Except String Bool
  runLogs : LogsResult
deriving Repr, DecidableEq

/-- Image for the run-phase container (`getImageForLanguage`). -/
def getImageForLanguage (language : String) : String :=
  if language = "python" then "python-exec"
  else if language = "javascript" then "javascript-exec"
  else ""

/-- Source-file extension for a language (`getFileExtensionForLanguage`). -/
def getFileExtensionForLanguage (language : String) : String :=
  if language = "python" then "py"
  else if language = "javascript" then "js"
  else ""

/-- Path returned by `createCodeFile`:
`filepath.Join(tempDir, "code." + ext)`.  Writing the file is a
filesystem action outside the Docker trace. -/
def createCodeFilePath (env : DockerEnv) (language : String) : String :=
  env.tmpDir ++ "/code." ++ getFileExtensionForLanguage language

/-- Three single-quote characters, as in the Go string literal wrapping the
submitted code inside `ast.parse(...)` (0x27 is the single quote). -/
def tripleQuote : String := String.mk [Char.ofNat 39, Char.ofNat 39, Char.ofNat 39]

/-- Embedding of `syntaxCheck`.  Per language: python stages a
`python:3.11-alpine` container with a nil `HostConfig` and checks the exit
status; javascript stages `node:19-alpine` with a bind mount and, on a
non-zero status, fetches the logs for the diagnostic; any other language
is rejected with no Docker call at all.  The deferred `ContainerRemove`
appears at the end of every trace that follows a successful create. -/
def syntaxCheck (env : DockerEnv) (code language : String) :
    Except String Unit × List DockerOp :=
  if language = "python" then
    let createOp := DockerOp.create "python:3.11-alpine"
      ["python", "-c", "import ast; ast.parse(" ++ tripleQuote ++ code ++ tripleQuote ++ ")"]
      none [] env.synCreate
    match env.synCreate with
    | .error e => (.error e, [createOp])
    | .ok cid =>
      match env.synStart with
      | some e => (.error e, [createOp, .start cid, .remove cid false])
      | none =>
        match env.synWait with
        | .waitErr e => (.error e, [createOp, .start cid, .wait cid, .remove cid false])
        | .waitNilErr => (.ok (), [createOp, .start cid, .wait cid, .remove cid false])
        | .exited c =>
          if c ≠ 0 then
            (.error "syntax check failed",
             [createOp, .start cid, .wait cid, .remove cid false])
          else (.ok (), [createOp, .start cid, .wait cid, .remove cid false])
  else if language = "javascript" then
    let codeFile := createCodeFilePath env language
    let containerPath := "/app/code." ++ getFileExtensionForLanguage language
    let createOp := DockerOp.create "node:19-alpine"
      ["node", "--check", containerPath] (some zeroResources)
      [codeFile ++ ":" ++ containerPath] env.synCreate
    match env.synCreate with
    | .error e => (.error e, [createOp])
    | .ok cid =>
      match env.synStart with
      | some e => (.error e, [createOp, .start cid, .remove cid false])
      | none =>
        match env.synWait with
        | .waitErr e => (.error e, [createOp, .start cid, .wait cid, .remove cid false])
        | .waitNilErr => (.ok (), [createOp, .start cid, .wait cid, .remove cid false])
        | .exited c =>
          if c ≠ 0 then
            match env.synLogs with
            | .logsErr le =>
              (.error ("syntax check failed with status code " ++ toString c ++
                 " and unable to retrieve logs: " ++ le),
               [createOp, .start cid, .wait cid, .logs cid, .remove cid false])
            | .copyErr ce =>
              (.error ("failed to read container logs: " ++ ce),
               [createOp, .start cid, .wait cid, .logs cid, .remove cid false])
            | .streams _ errS =>
              (.error ("syntax check failed: status code " ++ toString c ++
                 ", error: " ++ errS),
               [createOp, .start cid, .wait cid, .logs cid, .remove cid false])
          else (.ok (), [createOp, .start cid, .wait cid, .remove cid false])
  else (.error ("unsupported language: " ++ language), [])

/-- Resource limits of the run-phase container, exactly as `createContainer`
sets them: `Memory: 64 * 1024 * 1024`, `MemorySwap: 64 * 1024 * 1024`,
`CPUQuota: 50000`. -/
def runResources : Resources := ⟨64 * 1024 * 1024, 64 * 1024 * 1024, 50000⟩

/-- Embedding of `createContainer`: one `ContainerCreate` with the
language's run image, the staged file as command argument, `runResources`,
and the code file bind-mounted at `/app/code.<ext>`. -/
def createContainer (env : DockerEnv) (code language : String) :
    Except String String × List DockerOp :=
  let ext := getFileExtensionForLanguage language
  (env.runCreate,
   [DockerOp.create (getImageForLanguage language) ["code." ++ ext]
      (some runResources)
      [createCodeFilePath env language ++ ":/app/code." ++ ext] env.runCreate])

/-- Embedding of `startContainer`: one `ContainerStart`; `none` means nil
error. -/
def startContainer (env : DockerEnv) (containerID : String) :
    Option String × List DockerOp :=
  (env.runStart, [DockerOp.start containerID])

/-- Embedding of `waitForContainer`: `ContainerWait` raced against the
timeout context.  On the deadline it returns the timeout error — and does
nothing else. -/
def waitForContainer (env : DockerEnv) (containerID : String)
    (timeout : String) : Except String Int × List DockerOp :=
  let ops := [DockerOp.wait containerID]
  match env.runWait with
  | .waitErr e => (.error ("failed to wait for container: " ++ e), ops)
  | .waitNilErr => (.ok 0, ops)
  | .exited c => (.ok c, ops)
  | .deadline => (.error ("container execution timed out after " ++ timeout), ops)

/-- Embedding of `checkContainerStatus`: inspect the container; the OOM
flag is checked before the exit code. -/
def checkContainerStatus (env : DockerEnv) (containerID : String)
    (exitCode : Int) : Except String Unit × List DockerOp :=
  let ops := [DockerOp.inspect containerID]
  match env.inspectRes with
  | .error e => (.error ("failed to inspect container: " ++ e), ops)
  | .ok oomKilled =>
    if oomKilled then (.error "container exceeded memory limit", ops)
    else if exitCode ≠ 0 then
      (.error ("container exited with non-zero status code: " ++ toString exitCode), ops)
    else (.ok (), ops)

/-- Characters remaining after removing a leading run of whitespace. -/
def dropLeadingSpace : List Char → List Char
  | [] => []
  | c :: cs => if c.isWhitespace then dropLeadingSpace cs else c :: cs

/-- Embedding of `strings.TrimSpace`: the string with leading and trailing
whitespace removed. -/
def trimSpace (s : String) : String :=
  ⟨((dropLeadingSpace (dropLeadingSpace s.data).reverse)).reverse⟩

/-- Embedding of `getContainerOutput`: fetch and demultiplex the logs;
non-empty stderr is an error even on success, otherwise the trimmed
stdout is returned (`strings.TrimSpace`). -/
def getContainerOutput (env : DockerEnv) (containerID : String) :
    Except String String × List DockerOp :=
  let ops := [DockerOp.logs containerID]
  match env.runLogs with
  | .logsErr e => (.error ("failed to retrieve container logs: " ++ e), ops)
  | .copyErr e => (.error ("failed to read container logs: " ++ e), ops)
  | .streams out errS =>
    if errS.length > 0 then (.error ("execution error: " ++ errS), ops)
    else (.ok (trimSpace out), ops)

/-- Embedding of `removeContainer`: one `ContainerRemove` with the zero
`RemoveOptions` (so `Force` is `false`); its error is discarded. -/
def removeContainer (containerID : String) : List DockerOp :=
  [DockerOp.remove containerID false]

/-- Embedding of `DockerExecutor.Execute` (the current, three-argument
version): syntax check, create, deferred remove, start, wait, status
check, output collection.  The deferred `removeContainer` runs on every
path reached after a successful create, hence closes every such trace. -/
def Execute (env : DockerEnv) (code language : String) (timeout : String) :
    Except String String × List DockerOp :=
  let sc := syntaxCheck env code language
  match sc.1 with
  | .error e => (.error ("syntax check failed: " ++ e), sc.2)
  | .ok _ =>
    let cc := createContainer env code language
    match cc.1 with
    | .error e => (.error ("failed to create container: " ++ e), sc.2 ++ cc.2)
    | .ok containerID =>
      let st := startContainer env containerID
      match st.1 with
      | some e =>
        (.error ("failed to start container: " ++ e),
         sc.2 ++ cc.2 ++ st.2 ++ removeContainer containerID)
      | none =>
        let wc := waitForContainer env containerID timeout
        match wc.1 with
        | .error e =>
          (.error e, sc.2 ++ cc.2 ++ st.2 ++ wc.2 ++ removeContainer containerID)
        | .ok exitCode =>
          let cs := checkContainerStatus env containerID exitCode
          match cs.1 with
          | .error e =>
            (.error e,
             sc.2 ++ cc.2 ++ st.2 ++ wc.2 ++ cs.2 ++ removeContainer containerID)
          | .ok _ =>
            let go := getContainerOutput env containerID
            match go.1 with
            | .error e =>
              (.error e,
               sc.2 ++ cc.2 ++ st.2 ++ wc.2 ++ cs.2 ++ go.2 ++
                 removeContainer containerID)
            | .ok output =>
              (.ok output,
               sc.2 ++ cc.2 ++ st.2 ++ wc.2 ++ cs.2 ++ go.2 ++
                 removeContainer containerID)

/-- Truth of `op` being a `ContainerKill` or a `ContainerStop` call. -/
def DockerOp.isKillOrStop : DockerOp → Bool
  | .kill _ => true
  | .stop _ => true
  | _ => false

/-- Truth of `op` being a `ContainerUpdate` call. -/
def DockerOp.isUpdate : DockerOp → Bool
  | .update _ _ => true
  | _ => false

/-- Truth of `op` being a `ContainerRemove` call with `Force: true`. -/
def DockerOp.isForcedRemove : DockerOp → Bool
  | .remove _ f => f
  | _ => false

/-- Truth of `op` being a `ContainerLogs` call. -/
def DockerOp.isLogs : DockerOp → Bool
  | .logs _ => true
  | _ => false

/-- Truth of `op` being a `ContainerCreate` call. -/
def DockerOp.isCreate : DockerOp → Bool
  | .create _ _ _ _ _ => true
  | _ => false

/-- Container id handed back by the daemon when `op` is a successful
`ContainerCreate`, and `none` otherwise. -/
def DockerOp.createdId : DockerOp → Option String
  | .create _ _ _ _ (.ok id) => some id
  | _ => none

/-- Truth of `op` being a `ContainerCreate` with one of the run-phase
images (`getImageForLanguage` values for the registered languages), as
opposed to the syntax-check images `python:3.11-alpine` /
`node:19-alpine`. -/
def DockerOp.isRunPhaseCreate : DockerOp → Bool
  | .create img _ _ _ _ => img = "python-exec" || img = "javascript-exec"
  | _ => false

/-- Resources field of a `ContainerCreate` call. -/
def DockerOp.resourcesOf : DockerOp → Option Resources
  | .create _ _ r _ _ => r
  | _ => none

/-- Every operation a syntax check issues is benign: never a kill, stop,
update or forced remove, and never a create with a run-phase image. -/
theorem syntaxCheck_trace_tame (env : DockerEnv) (code language : String) :
    ((syntaxCheck env code language).2.all fun op =>
      !op.isKillOrStop && !op.isUpdate && !op.isForcedRemove &&
        !op.isRunPhaseCreate) = true := by
  unfold syntaxCheck
  repeat' split
  all_goals
    simp [DockerOp.isKillOrStop, DockerOp.isUpdate, DockerOp.isForcedRemove,
      DockerOp.isRunPhaseCreate]

/-- A successful syntax check never fetches container logs. -/
theorem syntaxCheck_ok_no_logs (env : DockerEnv) (code language : String)
    (h : (syntaxCheck env code language).1 = .ok ()) :
    ((syntaxCheck env code language).2.all fun op => !op.isLogs) = true := by
  unfold syntaxCheck at h ⊢
  repeat' split
  all_goals simp_all [DockerOp.isLogs]

/-- Truth of `pat` being a prefix of `s`, on character lists. -/
def charsHavePref : List Char → List Char → Bool
  | [], _ => true
  | _ :: _, [] => false
  | a :: as, b :: bs => a = b && charsHavePref as bs

/-- Truth of `pat` occurring contiguously inside `s`, on character lists. -/
def charsHaveSub (pat : List Char) : List Char → Bool
  | [] => charsHavePref pat []
  | b :: bs => charsHavePref pat (b :: bs) || charsHaveSub pat bs

/-- Truth of `pat` occurring as a contiguous substring of `s`; used to state
whether an error message carries a given diagnostic text. -/
def strContainsSub (s pat : String) : Bool := charsHaveSub pat.data s.data

/-- Left cancellation for string append. -/
theorem str_append_left_cancel {s t u : String} (h : s ++ t = s ++ u) :
    t = u := by
  have hd := congrArg String.data h
  rw [String.data_append, String.data_append] at hd
  exact String.ext (List.append_cancel_left hd)

/-- A non-empty string has positive length. -/
theorem str_ne_empty_length_pos {s : String} (h : s ≠ "") : 0 < s.length := by
  cases s with
  | mk data =>
    cases data with
    | nil => exact absurd rfl h
    | cons a l => simp [String.length]

/-- C4: a syntax-check failure makes `Execute` return the wrapped error
with the trace being exactly the syntax-check trace — in particular no
run-phase container is ever created (and hence none started). -/
theorem execute_syntax_failure_gates_run_phase (env : DockerEnv)
    (code language timeout e : String)
    (h : (syntaxCheck env code language).1 = .error e) :
    (Execute env code language timeout).1 =
      .error ("syntax check failed: " ++ e) ∧
    (Execute env code language timeout).2 = (syntaxCheck env code language).2 ∧
    ((Execute env code language timeout).2.all fun op =>
      !op.isRunPhaseCreate) = true := by
  have h2 : (Execute env code language timeout).2 =
      (syntaxCheck env code language).2 := by
    simp [Execute, h]
  refine ⟨by simp [Execute, h], h2, ?_⟩
  rw [h2]
  have htame := syntaxCheck_trace_tame env code language
  simp only [List.all_eq_true] at htame ⊢
  intro op hop
  have hgot := htame op hop
  simp only [Bool.and_eq_true] at hgot
  exact hgot.2

/-- C4 witness: a Python submission whose check container exits 1. -/
def envSynFail : DockerEnv :=
  ⟨"/tmp/c4", .ok "syn4", none, .exited 1, .streams "" "",
   .ok "run4", none, .exited 0, .ok false, .streams "ok" ""⟩

theorem execute_syntax_failure_gates_run_phase_witness :
    (Execute envSynFail "print(" "python" "5s").1 =
      .error "syntax check failed: syntax check failed" ∧
    (Execute envSynFail "print(" "python" "5s").2 =
      (syntaxCheck envSynFail "print(" "python").2 ∧
    ((Execute envSynFail "print(" "python" "5s").2.all fun op =>
      !op.isRunPhaseCreate) = true :=
  execute_syntax_failure_gates_run_phase envSynFail "print(" "python" "5s"
    "syntax check failed" rfl

/-- C7: an unregistered language makes `Execute` fail at once with the
unsupported-language diagnostic, the Docker trace stays empty (no sandbox
of any kind is created), and the resulting message is distinct from the
message a genuine Python syntax failure produces. -/
theorem execute_unsupported_language_rejected (env : DockerEnv)
    (code language timeout : String)
    (hp : language ≠ "python") (hj : language ≠ "javascript") :
    (Execute env code language timeout).1 =
      .error ("syntax check failed: unsupported language: " ++ language) ∧
    (Execute env code language timeout).2 = [] ∧
    ("syntax check failed: unsupported language: " ++ language) ≠
      "syntax check failed: syntax check failed" := by
  refine ⟨?_, ?_, ?_⟩
  · simp only [Execute, syntaxCheck, if_neg hp, if_neg hj]
    rw [← String.append_assoc]
    rfl
  · simp [Execute, syntaxCheck, hp, hj]
  · intro hcontra
    have hlen := congrArg String.length hcontra
    rw [String.length_append] at hlen
    have h1 : ("syntax check failed: unsupported language: " : String).length
        = 43 := rfl
    have h2 : ("syntax check failed: syntax check failed" : String).length
        = 40 := rfl
    rw [h1, h2] at hlen
    omega

theorem execute_unsupported_language_rejected_witness :
    (Execute envSynFail "puts 1" "ruby" "5s").1 =
      .error "syntax check failed: unsupported language: ruby" ∧
    (Execute envSynFail "puts 1" "ruby" "5s").2 = [] ∧
    ("syntax check failed: unsupported language: ruby" : String) ≠
      "syntax check failed: syntax check failed" :=
  execute_unsupported_language_rejected envSynFail "puts 1" "ruby" "5s"
    (by decide) (by decide)

/-- C2: once the run-phase container has completed with exit code `c`,
the inspected OOM flag set yields the memory-exceeded error whatever `c`
is (and output is never collected); flag unset with `c ≠ 0` yields the
non-zero-exit error (and output is never collected); only flag unset with
`c = 0` proceeds to output collection, whose outcome becomes the result
of `Execute`. -/
theorem execute_terminal_state_classification (env : DockerEnv)
    (code language timeout cid : String) (c : Int)
    (hsyn : (syntaxCheck env code language).1 = .ok ())
    (hcreate : env.runCreate = .ok cid)
    (hstart : env.runStart = none)
    (hwait : env.runWait = .exited c) :
    (env.inspectRes = .ok true →
      (Execute env code language timeout).1 =
        .error "container exceeded memory limit" ∧
      ((Execute env code language timeout).2.all fun op => !op.isLogs) = true) ∧
    (env.inspectRes = .ok false → c ≠ 0 →
      (Execute env code language timeout).1 =
        .error ("container exited with non-zero status code: " ++ toString c) ∧
      ((Execute env code language timeout).2.all fun op => !op.isLogs) = true) ∧
    (env.inspectRes = .ok false → c = 0 →
      DockerOp.logs cid ∈ (Execute env code language timeout).2 ∧
      (Execute env code language timeout).1 = (getContainerOutput env cid).1) := by
  have hnolog := syntaxCheck_ok_no_logs env code language hsyn
  refine ⟨fun hoom => ⟨?_, ?_⟩, fun hok hc => ⟨?_, ?_⟩, fun hok hc => ⟨?_, ?_⟩⟩
  · simp [Execute, createContainer, startContainer, waitForContainer,
      checkContainerStatus, removeContainer, hsyn, hcreate, hstart, hwait, hoom]
  · have htr : (Execute env code language timeout).2 =
        (syntaxCheck env code language).2 ++
          [DockerOp.create (getImageForLanguage language)
             ["code." ++ getFileExtensionForLanguage language]
             (some runResources)
             [createCodeFilePath env language ++ ":/app/code." ++
               getFileExtensionForLanguage language] (Except.ok cid),
           DockerOp.start cid, DockerOp.wait cid, DockerOp.inspect cid,
           DockerOp.remove cid false] := by
      simp [Execute, createContainer, startContainer, waitForContainer,
        checkContainerStatus, removeContainer, hsyn, hcreate, hstart, hwait,
        hoom]
    rw [htr, List.all_append, hnolog]
    simp [DockerOp.isLogs]
  · simp [Execute, createContainer, startContainer, waitForContainer,
      checkContainerStatus, removeContainer, hsyn, hcreate, hstart, hwait,
      hok, hc]
  · have htr : (Execute env code language timeout).2 =
        (syntaxCheck env code language).2 ++
          [DockerOp.create (getImageForLanguage language)
             ["code." ++ getFileExtensionForLanguage language]
             (some runResources)
             [createCodeFilePath env language ++ ":/app/code." ++
               getFileExtensionForLanguage language] (Except.ok cid),
           DockerOp.start cid, DockerOp.wait cid, DockerOp.inspect cid,
           DockerOp.remove cid false] := by
      simp [Execute, createContainer, startContainer, waitForContainer,
        checkContainerStatus, removeContainer, hsyn, hcreate, hstart, hwait,
        hok, hc]
    rw [htr, List.all_append, hnolog]
    simp [DockerOp.isLogs]
  · subst hc
    cases henv : env.runLogs with
    | logsErr e =>
      simp [Execute, createContainer, startContainer, waitForContainer,
        checkContainerStatus, getContainerOutput, removeContainer, hsyn,
        hcreate, hstart, hwait, hok, henv]
    | copyErr e =>
      simp [Execute, createContainer, startContainer, waitForContainer,
        checkContainerStatus, getContainerOutput, removeContainer, hsyn,
        hcreate, hstart, hwait, hok, henv]
    | streams sout serr =>
      by_cases hl : 0 < serr.length <;>
        simp [Execute, createContainer, startContainer, waitForContainer,
          checkContainerStatus, getContainerOutput, removeContainer, hsyn,
          hcreate, hstart, hwait, hok, henv, hl]
  · subst hc
    cases henv : env.runLogs with
    | logsErr e =>
      simp [Execute, createContainer, startContainer, waitForContainer,
        checkContainerStatus, getContainerOutput, removeContainer, hsyn,
        hcreate, hstart, hwait, hok, henv]
    | copyErr e =>
      simp [Execute, createContainer, startContainer, waitForContainer,
        checkContainerStatus, getContainerOutput, removeContainer, hsyn,
        hcreate, hstart, hwait, hok, henv]
    | streams sout serr =>
      by_cases hl : 0 < serr.length <;>
        simp [Execute, createContainer, startContainer, waitForContainer,
          checkContainerStatus, getContainerOutput, removeContainer, hsyn,
          hcreate, hstart, hwait, hok, henv, hl]

/-- C2 witness environments: OOM-killed run, plain non-zero exit, clean
zero exit. -/
def envOom : DockerEnv :=
  ⟨"/tmp/c2a", .ok "syn2", none, .exited 0, .streams "" "",
   .ok "run2", none, .exited 137, .ok true, .streams "" ""⟩

def envExit3 : DockerEnv :=
  ⟨"/tmp/c2b", .ok "syn2", none, .exited 0, .streams "" "",
   .ok "run2", none, .exited 3, .ok false, .streams "" ""⟩

def envCleanExit : DockerEnv :=
  ⟨"/tmp/c2c", .ok "syn2", none, .exited 0, .streams "" "",
   .ok "run2", none, .exited 0, .ok false, .streams " hi " ""⟩

theorem execute_terminal_state_classification_witness :
    (Execute envOom "x = 1" "python" "5s").1 =
      .error "container exceeded memory limit" ∧
    (Execute envExit3 "x = 1" "python" "5s").1 =
      .error "container exited with non-zero status code: 3" ∧
    DockerOp.logs "run2" ∈ (Execute envCleanExit "x = 1" "python" "5s").2 :=
  ⟨((execute_terminal_state_classification envOom "x = 1" "python" "5s"
      "run2" 137 rfl rfl rfl rfl).1 rfl).1,
   ((execute_terminal_state_classification envExit3 "x = 1" "python" "5s"
      "run2" 3 rfl rfl rfl rfl).2.1 rfl (by decide)).1,
   ((execute_terminal_state_classification envCleanExit "x = 1" "python" "5s"
      "run2" 0 rfl rfl rfl rfl).2.2 rfl rfl).1⟩

/-- C3: after a clean zero-exit run, non-empty captured stderr makes
`Execute` fail with the execution-error message that carries that stderr
verbatim, while empty stderr makes it succeed with the whitespace-trimmed
stdout. -/
theorem execute_zero_exit_output (env : DockerEnv)
    (code language timeout cid out errS : String)
    (hsyn : (syntaxCheck env code language).1 = .ok ())
    (hcreate : env.runCreate = .ok cid)
    (hstart : env.runStart = none)
    (hwait : env.runWait = .exited 0)
    (hinspect : env.inspectRes = .ok false)
    (hlogs : env.runLogs = .streams out errS) :
    (errS ≠ "" →
      (Execute env code language timeout).1 =
        .error ("execution error: " ++ errS) ∧
      strContainsSub ("execution error: " ++ errS) errS = true) ∧
    (errS = "" → (Execute env code language timeout).1 = .ok (trimSpace out)) := by
  constructor
  · intro hne
    have hpos := str_ne_empty_length_pos hne
    constructor
    · simp [Execute, createContainer, startContainer, waitForContainer,
        checkContainerStatus, getContainerOutput, removeContainer, hsyn,
        hcreate, hstart, hwait, hinspect, hlogs, hpos]
    · have hsuffix : ∀ l : List Char, charsHaveSub l l = true := by
        intro l
        cases l with
        | nil => rfl
        | cons a as =>
          have hpref : ∀ m : List Char, charsHavePref m m = true := by
            intro m
            induction m with
            | nil => rfl
            | cons b bs ih => simp [charsHavePref, ih]
          simp [charsHaveSub, hpref]
      have hdata := String.data_append "execution error: " errS
      unfold strContainsSub
      rw [hdata]
      induction ("execution error: " : String).data with
      | nil => exact hsuffix errS.data
      | cons a as ih => simp [charsHaveSub, ih]
  · intro he
    subst he
    simp [Execute, createContainer, startContainer, waitForContainer,
      checkContainerStatus, getContainerOutput, removeContainer, hsyn,
      hcreate, hstart, hwait, hinspect, hlogs]

/-- C3 witness environments: stderr noise on a zero exit, and a clean run
with whitespace-padded stdout. -/
def envStderrNoise : DockerEnv :=
  ⟨"/tmp/c3a", .ok "syn3", none, .exited 0, .streams "" "",
   .ok "run3", none, .exited 0, .ok false, .streams "partial" "warned"⟩

theorem execute_zero_exit_output_witness :
    (Execute envStderrNoise "x = 1" "python" "5s").1 =
      .error "execution error: warned" ∧
    (Execute envCleanExit "x = 1" "python" "5s").1 = .ok "hi" :=
  ⟨((execute_zero_exit_output envStderrNoise "x = 1" "python" "5s" "run3"
      "partial" "warned" rfl rfl rfl rfl rfl rfl).1 (by decide)).1,
   ((execute_zero_exit_output envCleanExit "x = 1" "python" "5s" "run2"
      " hi " "" rfl rfl rfl rfl rfl rfl).2 rfl).trans (by decide)⟩

/-- C5 environment: the run exits 2 with `"boom"` on stderr and no OOM. -/
def envExitStderr : DockerEnv :=
  ⟨"/tmp/c5", .ok "syn5", none, .exited 0, .streams "" "",
   .ok "run5", none, .exited 2, .ok false, .streams "" "boom"⟩

/-- C5 counterexample: a run-phase container that exits 2 with captured
stderr `"boom"` makes `Execute` return the non-zero-exit error built from
the exit code alone — the message does not contain the stderr text, and
the logs (the only source of stderr) are never even fetched. -/
theorem nonzero_exit_error_lacks_stderr :
    (Execute envExitStderr "x = 1" "python" "5s").1 =
      .error "container exited with non-zero status code: 2" ∧
    envExitStderr.runLogs = .streams "" "boom" ∧
    strContainsSub "container exited with non-zero status code: 2" "boom"
      = false ∧
    ((Execute envExitStderr "x = 1" "python" "5s").2.all fun op =>
      !op.isLogs) = true := by
  refine ⟨rfl, rfl, by decide, rfl⟩

/-- C5 amended: for every run-phase container that exits non-zero and is
not OOM-killed, the error returned by `Execute` carries the numeric exit
code as its diagnostic text; the run's stderr is not included and the
container logs are never fetched on this path. -/
theorem execute_nonzero_exit_carries_exit_code (env : DockerEnv)
    (code language timeout cid : String) (c : Int)
    (hsyn : (syntaxCheck env code language).1 = .ok ())
    (hcreate : env.runCreate = .ok cid)
    (hstart : env.runStart = none)
    (hwait : env.runWait = .exited c)
    (hinspect : env.inspectRes = .ok false)
    (hc : c ≠ 0) :
    (Execute env code language timeout).1 =
      .error ("container exited with non-zero status code: " ++ toString c) ∧
    ((Execute env code language timeout).2.all fun op => !op.isLogs) = true :=
  (execute_terminal_state_classification env code language timeout cid c
    hsyn hcreate hstart hwait).2.1 hinspect hc

theorem execute_nonzero_exit_carries_exit_code_witness :
    (Execute envExitStderr "x = 1" "python" "5s").1 =
      .error "container exited with non-zero status code: 2" ∧
    ((Execute envExitStderr "x = 1" "python" "5s").2.all fun op =>
      !op.isLogs) = true :=
  execute_nonzero_exit_carries_exit_code envExitStderr "x = 1" "python" "5s"
    "run5" 2 rfl rfl rfl rfl rfl (by decide)

theorem charsHavePref_self_append (p l : List Char) :
    charsHavePref p (p ++ l) = true := by
  induction p with
  | nil => rfl
  | cons a as ih => simp [charsHavePref, ih]

theorem charsHaveSub_of_pref (p s : List Char)
    (h : charsHavePref p s = true) : charsHaveSub p s = true := by
  cases s with
  | nil => simpa [charsHaveSub] using h
  | cons b bs => simp [charsHaveSub, h]

/-- C8 environments: a validator whose check container cannot be created,
one whose check container cannot be started, one whose create fails with
a daemon text that happens to equal the fixed syntax-failure diagnostic,
and a genuine Python syntax failure. -/
def envInfraCreate : DockerEnv :=
  ⟨"/tmp/c8a", .error "cannot connect to the docker daemon", none,
   .exited 0, .streams "" "", .ok "run8", none, .exited 0, .ok false,
   .streams "" ""⟩

def envInfraStart : DockerEnv :=
  ⟨"/tmp/c8b", .ok "syn8", some "no such image", .exited 0, .streams "" "",
   .ok "run8", none, .exited 0, .ok false, .streams "" ""⟩

def envInfraWrap : DockerEnv :=
  ⟨"/tmp/c8c", .error "syntax check failed", none, .exited 0,
   .streams "" "", .ok "run8", none, .exited 0, .ok false, .streams "" ""⟩

def envGenuineSynFail : DockerEnv :=
  ⟨"/tmp/c8d", .ok "syn8", none, .exited 1, .streams "" "",
   .ok "run8", none, .exited 0, .ok false, .streams "" ""⟩

/-- C8 counterexample: there is no distinct infrastructure-error kind.
With daemon error text `syntax check failed`, the call whose validation
sandbox could not be created returns literally the same error as a call
whose submitted code genuinely fails the syntax check — the caller cannot
tell them apart.  Even a realistic daemon error is wrapped in the very
`syntax check failed: ` prefix genuine syntax failures carry, so a caller
matching on that text (as the repository's own tests do) conflates the
two. -/
theorem infra_error_conflated_with_syntax_failure :
    envInfraWrap.synCreate = .error "syntax check failed" ∧
    envGenuineSynFail.synCreate = .ok "syn8" ∧
    envGenuineSynFail.synWait = .exited 1 ∧
    (Execute envInfraWrap "x = 1" "python" "5s").1 =
      (Execute envGenuineSynFail "x = 1" "python" "5s").1 ∧
    (Execute envInfraWrap "x = 1" "python" "5s").1 =
      .error "syntax check failed: syntax check failed" ∧
    strContainsSub "syntax check failed: cannot connect to the docker daemon"
      "syntax check failed" = true :=
  ⟨rfl, rfl, rfl, rfl, rfl, by decide⟩

/-- C8 (amended): for both registered languages, a validation sandbox
that cannot be created or started makes `Execute` return the daemon's own
error text wrapped in the same `syntax check failed: ` prefix that
genuine syntax failures carry — no distinct error kind; the message always
contains the `syntax check failed` marker, and it differs from the fixed
genuine Python syntax-failure diagnostic exactly when the daemon text is
not itself that diagnostic. -/
theorem validation_infra_error_wrapped (env : DockerEnv)
    (code language timeout e cid : String)
    (hlang : language = "python" ∨ language = "javascript") :
    (env.synCreate = .error e →
      (Execute env code language timeout).1 =
        .error ("syntax check failed: " ++ e)) ∧
    (env.synCreate = .ok cid → env.synStart = some e →
      (Execute env code language timeout).1 =
        .error ("syntax check failed: " ++ e)) ∧
    strContainsSub ("syntax check failed: " ++ e) "syntax check failed"
      = true ∧
    (e ≠ "syntax check failed" →
      ("syntax check failed: " ++ e : String) ≠
        "syntax check failed: syntax check failed") := by
  refine ⟨fun h1 => ?_, fun h1 h2 => ?_, ?_, fun hne hcontra => ?_⟩
  · rcases hlang with h | h <;> subst h <;> simp [Execute, syntaxCheck, h1]
  · rcases hlang with h | h <;> subst h <;> simp [Execute, syntaxCheck, h1, h2]
  · unfold strContainsSub
    rw [String.data_append]
    have h1 : ("syntax check failed: " : String).data =
        ("syntax check failed" : String).data ++
          [Char.ofNat 58, Char.ofNat 32] := rfl
    rw [h1, List.append_assoc]
    exact charsHaveSub_of_pref _ _ (charsHavePref_self_append _ _)
  · have h2 : ("syntax check failed: " ++ e : String) =
        "syntax check failed: " ++ "syntax check failed" := hcontra.trans rfl
    exact hne (str_append_left_cancel h2)

theorem validation_infra_error_wrapped_witness :
    (Execute envInfraCreate "x = 1" "python" "5s").1 =
      .error "syntax check failed: cannot connect to the docker daemon" ∧
    (Execute envInfraCreate "var x = 1" "javascript" "5s").1 =
      .error "syntax check failed: cannot connect to the docker daemon" ∧
    (Execute envInfraStart "x = 1" "python" "5s").1 =
      .error "syntax check failed: no such image" ∧
    strContainsSub "syntax check failed: cannot connect to the docker daemon"
      "syntax check failed" = true ∧
    ("syntax check failed: cannot connect to the docker daemon" : String) ≠
      "syntax check failed: syntax check failed" :=
  ⟨(validation_infra_error_wrapped envInfraCreate "x = 1" "python" "5s"
      "cannot connect to the docker daemon" "syn8" (Or.inl rfl)).1 rfl,
   (validation_infra_error_wrapped envInfraCreate "var x = 1" "javascript"
      "5s" "cannot connect to the docker daemon" "syn8" (Or.inr rfl)).1 rfl,
   (validation_infra_error_wrapped envInfraStart "x = 1" "python" "5s"
      "no such image" "syn8" (Or.inl rfl)).2.1 rfl rfl,
   (validation_infra_error_wrapped envInfraCreate "x = 1" "python" "5s"
      "cannot connect to the docker daemon" "syn8" (Or.inl rfl)).2.2.1,
   (validation_infra_error_wrapped envInfraCreate "x = 1" "python" "5s"
      "cannot connect to the docker daemon" "syn8" (Or.inl rfl)).2.2.2
     (by decide)⟩

/-- Truth of `op` not being an active force-stop of a container: neither a
kill nor a stop nor a forced remove. -/
def neverForceStop (op : DockerOp) : Bool :=
  !op.isKillOrStop && !op.isForcedRemove

/-- Truth of `op` respecting the fixed creation-time limits discipline: it
is not a `ContainerUpdate`, and if it creates a run-phase container it
does so with exactly `runResources`. -/
def limitsRespecting (op : DockerOp) : Bool :=
  !op.isUpdate && (!op.isRunPhaseCreate || op.resourcesOf == some runResources)

/-- Truth of every successfully created container in `ops` having a
matching non-forced `ContainerRemove` somewhere in `ops`. -/
def removalCovered (ops : List DockerOp) : Bool :=
  ops.all fun op =>
    match op.createdId with
    | some id => ops.contains (DockerOp.remove id false)
    | none => true

theorem syntaxCheck_all_neverForceStop (env : DockerEnv)
    (code language : String) :
    ((syntaxCheck env code language).2.all neverForceStop) = true := by
  unfold syntaxCheck
  repeat' split
  all_goals
    simp [neverForceStop, DockerOp.isKillOrStop, DockerOp.isForcedRemove]

theorem syntaxCheck_all_limitsRespecting (env : DockerEnv)
    (code language : String) :
    ((syntaxCheck env code language).2.all limitsRespecting) = true := by
  unfold syntaxCheck
  repeat' split
  all_goals
    simp [limitsRespecting, DockerOp.isUpdate, DockerOp.isRunPhaseCreate,
      DockerOp.resourcesOf]

theorem syntaxCheck_removalCovered (env : DockerEnv)
    (code language : String) :
    removalCovered (syntaxCheck env code language).2 = true := by
  unfold syntaxCheck removalCovered
  repeat' split
  all_goals simp_all [DockerOp.createdId]

theorem syntaxCheck_create_count (env : DockerEnv) (code language : String) :
    (syntaxCheck env code language).2.countP (fun op => op.isCreate) ≤ 1 := by
  unfold syntaxCheck
  repeat' split
  all_goals simp [List.countP_cons, DockerOp.isCreate]

/-- Monotonicity of removal coverage of a left part under extension of the
search range on the right. -/
theorem all_createdId_contains_mono (l1 l2 : List DockerOp)
    (h : (l1.all fun op =>
      match op.createdId with
      | some id => l1.contains (DockerOp.remove id false)
      | none => true) = true) :
    (l1.all fun op =>
      match op.createdId with
      | some id => (l1 ++ l2).contains (DockerOp.remove id false)
      | none => true) = true := by
  simp only [List.all_eq_true] at h ⊢
  intro x hx
  have hh := h x hx
  cases hc : x.createdId with
  | none => simp [hc]
  | some id =>
    simp only [hc] at hh ⊢
    rw [List.contains, List.elem_iff] at hh ⊢
    exact List.mem_append_left _ hh

/-- Truth of `op` being one of the operations that can follow the
run-phase create inside a single `Execute` call: never another create,
never a kill/stop/update, never a forced remove. -/
def tailBenign (op : DockerOp) : Bool :=
  !op.isCreate && !op.isKillOrStop && !op.isUpdate && !op.isForcedRemove

theorem not_create_no_createdId (op : DockerOp) (h : op.isCreate = false) :
    op.createdId = none := by
  cases op <;> simp_all [DockerOp.isCreate, DockerOp.createdId]

theorem not_create_not_runPhaseCreate (op : DockerOp)
    (h : op.isCreate = false) : op.isRunPhaseCreate = false := by
  cases op <;> simp_all [DockerOp.isCreate, DockerOp.isRunPhaseCreate]

/-- Shape of every possible `Execute` trace: either the syntax check fails
and the trace is exactly the syntax-check trace, or the trace is the
syntax-check trace followed by the run-phase `ContainerCreate` (with
`runResources`) and a benign tail; when the create succeeded, the tail
contains the deferred non-forced remove of the created container. -/
theorem execute_trace_shape (env : DockerEnv)
    (code language timeout : String) :
    (Execute env code language timeout).2 = (syntaxCheck env code language).2 ∨
    ∃ tail, (Execute env code language timeout).2 =
        (syntaxCheck env code language).2 ++
          DockerOp.create (getImageForLanguage language)
            ["code." ++ getFileExtensionForLanguage language]
            (some runResources)
            [createCodeFilePath env language ++ ":/app/code." ++
              getFileExtensionForLanguage language] env.runCreate :: tail ∧
        (tail.all tailBenign) = true ∧
        (∀ cid, env.runCreate = .ok cid → DockerOp.remove cid false ∈ tail) := by
  cases hsc : (syntaxCheck env code language).1 with
  | error e =>
    left
    simp [Execute, hsc]
  | ok u =>
    right
    cases hrc : env.runCreate with
    | error e =>
      refine ⟨[], ?_, rfl, by simp⟩
      simp [Execute, createContainer, hsc, hrc]
    | ok cid =>
      have hmem : ∀ (t : List DockerOp), DockerOp.remove cid false ∈ t →
          ∀ c2, (Except.ok cid : Except String String) = .ok c2 →
            DockerOp.remove c2 false ∈ t := by
        intro t ht c2 h2
        injection h2 with h3
        subst h3
        exact ht
      cases hrs : env.runStart with
      | some e =>
        refine ⟨[DockerOp.start cid, DockerOp.remove cid false], ?_,
          by simp [tailBenign, DockerOp.isCreate, DockerOp.isKillOrStop,
            DockerOp.isUpdate, DockerOp.isForcedRemove],
          hmem _ (by simp)⟩
        simp [Execute, createContainer, startContainer, removeContainer,
          hsc, hrc, hrs]
      | none =>
        cases hrw : env.runWait with
        | waitErr e =>
          refine ⟨[DockerOp.start cid, DockerOp.wait cid,
            DockerOp.remove cid false], ?_,
            by simp [tailBenign, DockerOp.isCreate, DockerOp.isKillOrStop,
              DockerOp.isUpdate, DockerOp.isForcedRemove],
            hmem _ (by simp)⟩
          simp [Execute, createContainer, startContainer, waitForContainer,
            removeContainer, hsc, hrc, hrs, hrw]
        | deadline =>
          refine ⟨[DockerOp.start cid, DockerOp.wait cid,
            DockerOp.remove cid false], ?_,
            by simp [tailBenign, DockerOp.isCreate, DockerOp.isKillOrStop,
              DockerOp.isUpdate, DockerOp.isForcedRemove],
            hmem _ (by simp)⟩
          simp [Execute, createContainer, startContainer, waitForContainer,
            removeContainer, hsc, hrc, hrs, hrw]
        | waitNilErr =>
          cases hir : env.inspectRes with
          | error e2 =>
            refine ⟨[DockerOp.start cid, DockerOp.wait cid,
              DockerOp.inspect cid, DockerOp.remove cid false], ?_,
              by simp [tailBenign, DockerOp.isCreate, DockerOp.isKillOrStop,
                DockerOp.isUpdate, DockerOp.isForcedRemove],
              hmem _ (by simp)⟩
            simp [Execute, createContainer, startContainer, waitForContainer,
              checkContainerStatus, removeContainer, hsc, hrc, hrs, hrw, hir]
          | ok b =>
            cases b with
            | true =>
              refine ⟨[DockerOp.start cid, DockerOp.wait cid,
                DockerOp.inspect cid, DockerOp.remove cid false], ?_,
                by simp [tailBenign, DockerOp.isCreate,
                  DockerOp.isKillOrStop, DockerOp.isUpdate,
                  DockerOp.isForcedRemove],
                hmem _ (by simp)⟩
              simp [Execute, createContainer, startContainer,
                waitForContainer, checkContainerStatus, removeContainer,
                hsc, hrc, hrs, hrw, hir]
            | false =>
              refine ⟨[DockerOp.start cid, DockerOp.wait cid,
                DockerOp.inspect cid, DockerOp.logs cid,
                DockerOp.remove cid false], ?_,
                by simp [tailBenign, DockerOp.isCreate,
                  DockerOp.isKillOrStop, DockerOp.isUpdate,
                  DockerOp.isForcedRemove],
                hmem _ (by simp)⟩
              cases hlog : env.runLogs with
              | logsErr e2 =>
                simp [Execute, createContainer, startContainer,
                  waitForContainer, checkContainerStatus, getContainerOutput,
                  removeContainer, hsc, hrc, hrs, hrw, hir, hlog]
              | copyErr e2 =>
                simp [Execute, createContainer, startContainer,
                  waitForContainer, checkContainerStatus, getContainerOutput,
                  removeContainer, hsc, hrc, hrs, hrw, hir, hlog]
              | streams o s =>
                by_cases hl : 0 < s.length <;>
                  simp [Execute, createContainer, startContainer,
                    waitForContainer, checkContainerStatus,
                    getContainerOutput, removeContainer, hsc, hrc, hrs, hrw,
                    hir, hlog, hl]
        | exited c =>
          cases hir : env.inspectRes with
          | error e2 =>
            refine ⟨[DockerOp.start cid, DockerOp.wait cid,
              DockerOp.inspect cid, DockerOp.remove cid false], ?_,
              by simp [tailBenign, DockerOp.isCreate, DockerOp.isKillOrStop,
                DockerOp.isUpdate, DockerOp.isForcedRemove],
              hmem _ (by simp)⟩
            simp [Execute, createContainer, startContainer, waitForContainer,
              checkContainerStatus, removeContainer, hsc, hrc, hrs, hrw, hir]
          | ok b =>
            cases b with
            | true =>
              refine ⟨[DockerOp.start cid, DockerOp.wait cid,
                DockerOp.inspect cid, DockerOp.remove cid false], ?_,
                by simp [tailBenign, DockerOp.isCreate,
                  DockerOp.isKillOrStop, DockerOp.isUpdate,
                  DockerOp.isForcedRemove],
                hmem _ (by simp)⟩
              simp [Execute, createContainer, startContainer,
                waitForContainer, checkContainerStatus, removeContainer,
                hsc, hrc, hrs, hrw, hir]
            | false =>
              by_cases hc : c = 0
              · subst hc
                refine ⟨[DockerOp.start cid, DockerOp.wait cid,
                  DockerOp.inspect cid, DockerOp.logs cid,
                  DockerOp.remove cid false], ?_,
                  by simp [tailBenign, DockerOp.isCreate,
                    DockerOp.isKillOrStop, DockerOp.isUpdate,
                    DockerOp.isForcedRemove],
                  hmem _ (by simp)⟩
                cases hlog : env.runLogs with
                | logsErr e2 =>
                  simp [Execute, createContainer, startContainer,
                    waitForContainer, checkContainerStatus,
                    getContainerOutput, removeContainer, hsc, hrc, hrs, hrw,
                    hir, hlog]
                | copyErr e2 =>
                  simp [Execute, createContainer, startContainer,
                    waitForContainer, checkContainerStatus,
                    getContainerOutput, removeContainer, hsc, hrc, hrs, hrw,
                    hir, hlog]
                | streams o s =>
                  by_cases hl : 0 < s.length <;>
                    simp [Execute, createContainer, startContainer,
                      waitForContainer, checkContainerStatus,
                      getContainerOutput, removeContainer, hsc, hrc, hrs,
                      hrw, hir, hlog, hl]
              · refine ⟨[DockerOp.start cid, DockerOp.wait cid,
                  DockerOp.inspect cid, DockerOp.remove cid false], ?_,
                  by simp [tailBenign, DockerOp.isCreate,
                    DockerOp.isKillOrStop, DockerOp.isUpdate,
                    DockerOp.isForcedRemove],
                  hmem _ (by simp)⟩
                simp [Execute, createContainer, startContainer,
                  waitForContainer, checkContainerStatus, removeContainer,
                  hsc, hrc, hrs, hrw, hir, hc]

theorem tailBenign_neverForceStop (op : DockerOp)
    (h : tailBenign op = true) : neverForceStop op = true := by
  cases op <;>
    simp_all [tailBenign, neverForceStop, DockerOp.isCreate,
      DockerOp.isKillOrStop, DockerOp.isUpdate, DockerOp.isForcedRemove]

theorem tailBenign_limitsRespecting (op : DockerOp)
    (h : tailBenign op = true) : limitsRespecting op = true := by
  cases op <;>
    simp_all [tailBenign, limitsRespecting, DockerOp.isCreate,
      DockerOp.isKillOrStop, DockerOp.isUpdate, DockerOp.isForcedRemove,
      DockerOp.isRunPhaseCreate, DockerOp.resourcesOf]

theorem execute_all_neverForceStop (env : DockerEnv)
    (code language timeout : String) :
    ((Execute env code language timeout).2.all neverForceStop) = true := by
  rcases execute_trace_shape env code language timeout with h | ⟨tail, h, hben, hrem⟩
  · rw [h]
    exact syntaxCheck_all_neverForceStop env code language
  · rw [h]
    simp only [List.all_append, List.all_cons, Bool.and_eq_true]
    refine ⟨syntaxCheck_all_neverForceStop env code language, rfl, ?_⟩
    simp only [List.all_eq_true] at hben ⊢
    exact fun x hx => tailBenign_neverForceStop x (hben x hx)

theorem execute_all_limitsRespecting (env : DockerEnv)
    (code language timeout : String) :
    ((Execute env code language timeout).2.all limitsRespecting) = true := by
  rcases execute_trace_shape env code language timeout with h | ⟨tail, h, hben, hrem⟩
  · rw [h]
    exact syntaxCheck_all_limitsRespecting env code language
  · rw [h]
    simp only [List.all_append, List.all_cons, Bool.and_eq_true]
    refine ⟨syntaxCheck_all_limitsRespecting env code language, ?_, ?_⟩
    · simp [limitsRespecting, DockerOp.isUpdate, DockerOp.isRunPhaseCreate,
        DockerOp.resourcesOf]
    · simp only [List.all_eq_true] at hben ⊢
      exact fun x hx => tailBenign_limitsRespecting x (hben x hx)

theorem execute_removalCovered (env : DockerEnv)
    (code language timeout : String) :
    removalCovered (Execute env code language timeout).2 = true := by
  have hsynCov := syntaxCheck_removalCovered env code language
  unfold removalCovered at hsynCov ⊢
  rcases execute_trace_shape env code language timeout with h | ⟨tail, h, hben, hrem⟩
  · rw [h]
    exact hsynCov
  · rw [h, List.all_append]
    have hsynPart := all_createdId_contains_mono _
      (DockerOp.create (getImageForLanguage language)
        ["code." ++ getFileExtensionForLanguage language]
        (some runResources)
        [createCodeFilePath env language ++ ":/app/code." ++
          getFileExtensionForLanguage language] env.runCreate :: tail)
      hsynCov
    rw [hsynPart, List.all_cons]
    simp only [Bool.true_and]
    have hcreateCov : (match (DockerOp.create (getImageForLanguage language)
        ["code." ++ getFileExtensionForLanguage language]
        (some runResources)
        [createCodeFilePath env language ++ ":/app/code." ++
          getFileExtensionForLanguage language] env.runCreate).createdId with
      | some id => ((syntaxCheck env code language).2 ++
          DockerOp.create (getImageForLanguage language)
            ["code." ++ getFileExtensionForLanguage language]
            (some runResources)
            [createCodeFilePath env language ++ ":/app/code." ++
              getFileExtensionForLanguage language] env.runCreate ::
            tail).contains (DockerOp.remove id false)
      | none => true) = true := by
      cases hrc : env.runCreate with
      | error e => simp [DockerOp.createdId, hrc]
      | ok cid =>
        simp only [DockerOp.createdId, hrc]
        rw [List.contains, List.elem_iff]
        refine List.mem_append_right _ (List.mem_cons_of_mem _ ?_)
        exact hrem cid hrc
    rw [hcreateCov]
    simp only [Bool.true_and, List.all_eq_true]
    intro x hx
    simp only [List.all_eq_true] at hben
    have hb := hben x hx
    have hnc : x.isCreate = false := by
      cases x <;> simp_all [tailBenign, DockerOp.isCreate]
    rw [not_create_no_createdId x hnc]

theorem execute_create_count (env : DockerEnv)
    (code language timeout : String) :
    (Execute env code language timeout).2.countP (fun op => op.isCreate)
      ≤ 2 := by
  have hsyn := syntaxCheck_create_count env code language
  rcases execute_trace_shape env code language timeout with h | ⟨tail, h, hben, hrem⟩
  · rw [h]
    omega
  · rw [h, List.countP_append, List.countP_cons]
    have htail : tail.countP (fun op => op.isCreate) = 0 := by
      rw [List.countP_eq_zero]
      intro a ha
      simp only [List.all_eq_true] at hben
      have hb := hben a ha
      have hnc : a.isCreate = false := by
        cases a <;> simp_all [tailBenign, DockerOp.isCreate]
      simp [hnc]
    rw [htail]
    have hone : (if (fun (op : DockerOp) => op.isCreate)
        (DockerOp.create (getImageForLanguage language)
          ["code." ++ getFileExtensionForLanguage language]
          (some runResources)
          [createCodeFilePath env language ++ ":/app/code." ++
            getFileExtensionForLanguage language] env.runCreate) = true
        then 1 else 0) = 1 := rfl
    rw [hone]
    omega

/-- C1: when the run-phase wait hits the caller-supplied deadline,
`Execute` returns the timeout error, and its Docker trace contains no
`ContainerKill`, no `ContainerStop`, and no forced `ContainerRemove` —
the engine never actively force-stops the timed-out container; the only
cleanup issued is the deferred non-forced remove. -/
theorem execute_timeout_returns_without_forcestop (env : DockerEnv)
    (code language timeout cid : String)
    (hsyn : (syntaxCheck env code language).1 = .ok ())
    (hcreate : env.runCreate = .ok cid)
    (hstart : env.runStart = none)
    (hwait : env.runWait = .deadline) :
    (Execute env code language timeout).1 =
      .error ("container execution timed out after " ++ timeout) ∧
    ((Execute env code language timeout).2.all neverForceStop) = true :=
  ⟨by
    simp [Execute, createContainer, startContainer, waitForContainer,
      removeContainer, hsyn, hcreate, hstart, hwait],
   execute_all_neverForceStop env code language timeout⟩

/-- C1 environment: a Python submission whose run-phase wait times out. -/
def envTimeout : DockerEnv :=
  ⟨"/tmp/c1", .ok "syn1", none, .exited 0, .streams "" "",
   .ok "run1", none, .deadline, .ok false, .streams "" ""⟩

theorem execute_timeout_returns_without_forcestop_witness :
    (Execute envTimeout "import time; time.sleep(5)" "python" "200ms").1 =
      .error "container execution timed out after 200ms" ∧
    ((Execute envTimeout "import time; time.sleep(5)" "python"
      "200ms").2.all neverForceStop) = true :=
  execute_timeout_returns_without_forcestop envTimeout
    "import time; time.sleep(5)" "python" "200ms" "run1" rfl rfl rfl rfl

/-- C6: every operation in every `Execute` trace respects the fixed
limits discipline — no `ContainerUpdate` ever occurs, and every create of
a run-phase image carries exactly `runResources` — whose constants are a
64MiB memory hard cap, a swap limit equal to the memory limit (swap
disabled), and a CPU quota of 50000 (50% of the default 100000 period). -/
theorem run_container_fixed_limits (env : DockerEnv)
    (code language timeout : String) :
    ((Execute env code language timeout).2.all limitsRespecting) = true ∧
    runResources.memory = 64 * 1024 * 1024 ∧
    runResources.memorySwap = runResources.memory ∧
    runResources.cpuQuota = 50000 :=
  ⟨execute_all_limitsRespecting env code language timeout, rfl, rfl, rfl⟩

theorem run_container_fixed_limits_witness :
    ((Execute envTimeout "import time; time.sleep(5)" "python"
      "200ms").2.all limitsRespecting) = true ∧
    runResources.memory = 64 * 1024 * 1024 ∧
    runResources.memorySwap = runResources.memory ∧
    runResources.cpuQuota = 50000 :=
  run_container_fixed_limits envTimeout "import time; time.sleep(5)"
    "python" "200ms"

/-- Supporting fact (what the code does do): in every `Execute` trace,
every container whose creation succeeded has a non-forced
`ContainerRemove` call issued before the call returns, and at most two
`ContainerCreate` calls are ever made.  Whether that remove call actually
removes the container is up to the daemon: it refuses a non-forced remove
of a running container. -/
theorem created_containers_get_remove_calls (env : DockerEnv)
    (code language timeout : String) :
    removalCovered (Execute env code language timeout).2 = true ∧
    (Execute env code language timeout).2.countP (fun op => op.isCreate)
      ≤ 2 :=
  ⟨execute_removalCovered env code language timeout,
   execute_create_count env code language timeout⟩

/-- C9 environment: a Python run whose run-phase wait hits the deadline,
so the run container never exits during the call. -/
def env9Timeout : DockerEnv :=
  ⟨"/tmp/c9", .ok "syn9", none, .exited 0, .streams "" "",
   .ok "run9", none, .deadline, .ok false, .streams "" ""⟩

/-- C9: at the timeout failing input the call returns the timeout error
while the run-phase container has never exited (`runWait` is the
deadline), and the complete Docker trace shows that the only cleanup ever
addressed to it is one `ContainerRemove` with `Force: false` — no kill,
no stop, no forced remove anywhere.  The Docker daemon refuses a
non-forced remove of a running container and `removeContainer` discards
that error, so the timed-out instance is not actually removed and
outlives the call, contrary to removal on every exit path. -/
theorem timeout_container_cleanup_only_nonforced_remove :
    (Execute env9Timeout "import time; time.sleep(9)" "python" "200ms").1 =
      .error "container execution timed out after 200ms" ∧
    env9Timeout.runWait = .deadline ∧
    (Execute env9Timeout "import time; time.sleep(9)" "python" "200ms").2 =
      [DockerOp.create "python:3.11-alpine"
         ["python", "-c", "import ast; ast.parse(" ++ tripleQuote ++
           "import time; time.sleep(9)" ++ tripleQuote ++ ")"]
         none [] (.ok "syn9"),
       DockerOp.start "syn9", DockerOp.wait "syn9",
       DockerOp.remove "syn9" false,
       DockerOp.create "python-exec" ["code.py"] (some runResources)
         ["/tmp/c9/code.py:/app/code.py"] (.ok "run9"),
       DockerOp.start "run9", DockerOp.wait "run9",
       DockerOp.remove "run9" false] ∧
    ((Execute env9Timeout "import time; time.sleep(9)" "python"
      "200ms").2.all neverForceStop) = true :=
  ⟨rfl, rfl, rfl, rfl⟩

/-- Languages the handler accepts (`isLanguageSupported`: a linear scan of
the supported-languages slice). -/
def isLanguageSupported (language : String) : Bool :=
  ["python", "javascript"].contains language

/-- An HTTP request as the handler consumes it: the method, and the JSON
body decoded into a string-to-string map (`none` when decoding fails). -/
structure HttpRequest where
  method : String
  body : Option (List (String × String))

/-- The response the handler writes: the status code (200 when
`WriteHeader` is never called) and the JSON object body as key/value
pairs. -/
structure HttpResponse where
  status : Nat
  body : List (String × String)
deriving Repr, DecidableEq

/-- Go map read `body["k"]`: the empty string when the key is absent. -/
def mapGet (kvs : List (String × String)) (k : String) : String :=
  match kvs.lookup k with
  | some v => v
  | none => ""

/-- Embedding of `errorResponse`: writes the status code explicitly and a
JSON object with only an `error` field. -/
def errorResponse (message : String) (statusCode : Nat) : HttpResponse :=
  ⟨statusCode, [("error", message)]⟩

/-- Embedding of `CodeExecutionHandler.ServeHTTP`: method and body
validation, then `Execute` with the fixed five-second timeout (rendered
`"5s"`); an execution error is encoded as `{"error": ...}` with no
`WriteHeader` call, hence status 200. -/
def serveHTTP (env : DockerEnv) (r : HttpRequest) : HttpResponse :=
  if r.method ≠ "POST" then errorResponse "method not allowed" 405
  else
    match r.body with
    | none => errorResponse "invalid request body" 400
    | some kvs =>
      let code := mapGet kvs "code"
      let language := mapGet kvs "language"
      if language = "" then errorResponse "language not specified" 400
      else if !(isLanguageSupported language) then
        errorResponse ("unsupported language: " ++ language) 400
      else if code = "" then errorResponse "code not provided" 400
      else
        match (Execute env code language "5s").1 with
        | .error e => ⟨200, [("error", e)]⟩
        | .ok output => ⟨200, [("output", output)]⟩

/-- C10: once a POST request passes the handler's own validation, the
response status is 200 regardless of how execution turns out — so non-200
statuses can only come from the pre-execution validation — and when the
executor returns an error the body is exactly the one-field
`{"error": ...}` object. -/
theorem handler_execution_errors_http_200 (env : DockerEnv)
    (r : HttpRequest) (kvs : List (String × String)) (e : String)
    (hm : r.method = "POST")
    (hb : r.body = some kvs)
    (hl : mapGet kvs "language" ≠ "")
    (hsup : isLanguageSupported (mapGet kvs "language") = true)
    (hc : mapGet kvs "code" ≠ "") :
    (serveHTTP env r).status = 200 ∧
    ((Execute env (mapGet kvs "code") (mapGet kvs "language") "5s").1 =
        .error e →
      serveHTTP env r = ⟨200, [("error", e)]⟩) := by
  constructor
  · cases hE : (Execute env (mapGet kvs "code") (mapGet kvs "language")
        "5s").1 <;>
      simp [serveHTTP, hm, hb, hl, hsup, hc, hE]
  · intro hE
    simp [serveHTTP, hm, hb, hl, hsup, hc, hE]

/-- C10 witness: a valid request whose Python code fails the syntax
check; the handler still answers 200 with only the error field. -/
def reqValid : HttpRequest :=
  ⟨"POST", some [("code", "print("), ("language", "python")]⟩

theorem handler_execution_errors_http_200_witness :
    (serveHTTP envSynFail reqValid).status = 200 ∧
    serveHTTP envSynFail reqValid =
      ⟨200, [("error", "syntax check failed: syntax check failed")]⟩ :=
  ⟨(handler_execution_errors_http_200 envSynFail reqValid
      [("code", "print("), ("language", "python")]
      "syntax check failed: syntax check failed" rfl rfl (by decide) rfl
      (by decide)).1,
   (handler_execution_errors_http_200 envSynFail reqValid
      [("code", "print("), ("language", "python")]
      "syntax check failed: syntax check failed" rfl rfl (by decide) rfl
      (by decide)).2 rfl⟩

end CodeExec
